import Mathlib

/-!
Shallow embedding of the MortgageCalculator repository
(`mortgagecalculatorlib.py`, `config_dataclasses.py`, `custom_types.py`,
`mortgagecalculator_batch.py`).

Python floats are modelled as rationals (ℚ), Python ints as ℤ.  `round(x, n)`
is Python's round-half-to-even, modelled exactly on ℚ by `pyround`.  Functions
that `raise` are modelled in `Except`.  Validation error messages are Python
f-strings; they are modelled by the inductive type `ConfigError`, one
constructor per distinct message, carrying exactly the values the f-string
interpolates.
-/

/-- Python `round` to an integer: round half to even (banker's rounding). -/
def roundHalfEven (q : ℚ) : ℤ :=
  let f : ℤ := q.floor
  let frac : ℚ := q - f
  if frac < 1/2 then f
  else if 1/2 < frac then f + 1
  else if f % 2 = 0 then f else f + 1

/-- Python `round(x, n)` on exact rationals: round half to even at `n` decimal
digits. -/
def pyround (x : ℚ) (n : ℕ) : ℚ :=
  (roundHalfEven (x * 10 ^ n) : ℚ) / 10 ^ n

/-! ## Data model (`config_dataclasses.py`) -/

/-- Embeds `LandTransferTaxBracket`: threshold/rate pair, rate a percentage. -/
structure LandTransferTaxBracket where
  threshold : ℚ
  rate : ℚ
deriving DecidableEq

/-- Embeds `PropertyConfig`: one property's configuration. -/
structure PropertyConfig where
  value : ℚ
  condo_fees : ℚ
  area_sqft : ℚ
  bedrooms : ℤ
  bathrooms : ℤ
  year_built : ℤ
  interest_rate : ℚ
  years_of_loan : ℤ
  property_tax : ℚ
  school_tax : ℚ
  yearly_home_insurance : ℚ
  notary_cost : ℚ
  inspection_cost : ℚ
  land_transfer_tax_brackets : List LandTransferTaxBracket := []
  description : Option String := none
  address : Option String := none
  link : Option String := none
deriving DecidableEq

/-- Embeds `LoanParametersConfig`. -/
structure LoanParametersConfig where
  down_payment : ℚ
  interest_rate : ℚ
  years_of_loan : ℤ
  monthly_salary : ℚ
  monthly_debt_payment : ℚ
deriving DecidableEq

/-- Embeds `NecessaryExpensesConfig`. -/
structure NecessaryExpensesConfig where
  notary_cost : ℚ
  inspection_cost : ℚ
deriving DecidableEq

/-- Embeds `PropertiesListConfig` (output paths and chart settings are I/O-side
strings with no influence on the math; they are omitted from the embedding). -/
structure PropertiesListConfig where
  properties : List PropertyConfig
  loan_parameters : LoanParametersConfig
  necessary_expenses : NecessaryExpensesConfig
deriving DecidableEq

/-! ## Numeric helpers (`mortgagecalculatorlib.py`) -/

def MONTHS_IN_YEAR : ℤ := 12

/-- Embeds `percent_to_decimal(percentage)`: `percentage / 100`. -/
def percent_to_decimal (percentage : ℚ) : ℚ := percentage / 100

/-- Embeds `land_transfer_tax_rate_decimal(value, brackets)`: first bracket in list
order whose `threshold < value` gives its rate (as a decimal); otherwise the
last bracket's rate; `ValueError` when the list is empty. -/
def land_transfer_tax_rate_decimal (value : ℚ) :
    List LandTransferTaxBracket → Except String ℚ
  | [] => .error "No land transfer tax brackets configured"
  | bracket :: rest =>
    if bracket.threshold < value then
      .ok (percent_to_decimal bracket.rate)
    else
      match rest with
      | [] => .ok (percent_to_decimal bracket.rate)
      | _ :: _ => land_transfer_tax_rate_decimal value rest

/-- Embeds `calculate_land_transfer_tax(value, brackets)`. -/
def calculate_land_transfer_tax (value : ℚ)
    (brackets : List LandTransferTaxBracket) : Except String ℚ := do
  let rate ← land_transfer_tax_rate_decimal value brackets
  return value * rate

/-- Embeds `calculate_monthly_interest_rate(yearly_rate_decimal)`. -/
def calculate_monthly_interest_rate (yearly_rate_decimal : ℚ) : ℚ :=
  yearly_rate_decimal / MONTHS_IN_YEAR

/-- Embeds `calculate_mortgage_payment(yearly_rate_decimal, years, loan_amount)`. -/
def calculate_mortgage_payment (yearly_rate_decimal : ℚ) (years : ℤ)
    (loan_amount : ℚ) : ℚ :=
  if yearly_rate_decimal = 0 then
    loan_amount / (years * MONTHS_IN_YEAR : ℤ)
  else
    let monthly_rate := calculate_monthly_interest_rate yearly_rate_decimal
    let months : ℤ := years * MONTHS_IN_YEAR
    (loan_amount * monthly_rate * (1 + monthly_rate) ^ months) /
      ((1 + monthly_rate) ^ months - 1)

/-- Embeds `calculate_yearly_tax(value, rate_decimal)`. -/
def calculate_yearly_tax (value : ℚ) (rate_decimal : ℚ) : ℚ :=
  value * rate_decimal

/-! ## `CalculatedMortgage` -/

/-- The attributes computed by `CalculatedMortgage.__init__`. -/
structure CalculatedMortgage where
  land_transfer_tax_rate : ℚ
  land_transfer_tax : ℚ
  all_one_time_costs : ℚ
  cash_to_close : ℚ
  yearly_property_tax : ℚ
  monthly_property_tax : ℚ
  yearly_school_tax : ℚ
  monthly_school_tax : ℚ
  monthly_home_insurance : ℚ
  total_yearly_costs : ℚ
  loan_amount : ℚ
  mortgage_payment : ℚ
  monthly_interest : ℚ
  yearly_interest : ℚ
  total_interest : ℚ
  price_per_sqft : ℚ
  total_monthly_costs : ℚ
  gds_ratio : ℚ
  tds_ratio : ℚ
deriving DecidableEq

/-- Embeds `CalculatedMortgage.__init__(property_details, cfg)`.  The only
exception it can propagate is the resolver's `ValueError` on an empty
bracket list (the source calls the resolver twice: once directly and once
through `calculate_land_transfer_tax`).  `float(area_sqft or 0)` maps the
falsy value `0` to `0`, the identity on this non-optional numeric field. -/
def CalculatedMortgage.init (property_details : PropertyConfig)
    (cfg : PropertiesListConfig) : Except String CalculatedMortgage := do
  let interest_rate_decimal := percent_to_decimal cfg.loan_parameters.interest_rate
  let property_tax_decimal := percent_to_decimal property_details.property_tax
  let school_tax_decimal := percent_to_decimal property_details.school_tax
  let area_sqft : ℚ := property_details.area_sqft
  let brackets := property_details.land_transfer_tax_brackets
  let rate ← land_transfer_tax_rate_decimal property_details.value brackets
  let land_transfer_tax_rate := pyround rate 7
  let ltt ← calculate_land_transfer_tax property_details.value brackets
  let land_transfer_tax := pyround ltt 2
  let one_time_costs : List ℚ :=
    [cfg.necessary_expenses.notary_cost, cfg.necessary_expenses.inspection_cost,
     land_transfer_tax]
  let all_one_time_costs := pyround one_time_costs.sum 2
  let cash_to_close := pyround (cfg.loan_parameters.down_payment + all_one_time_costs) 2
  let yearly_property_tax :=
    pyround (calculate_yearly_tax property_details.value property_tax_decimal) 2
  let monthly_property_tax := pyround (yearly_property_tax / MONTHS_IN_YEAR) 2
  let yearly_school_tax :=
    pyround (calculate_yearly_tax property_details.value school_tax_decimal) 2
  let monthly_school_tax := pyround (yearly_school_tax / MONTHS_IN_YEAR) 2
  let yearly_home_insurance := pyround property_details.yearly_home_insurance 2
  let monthly_home_insurance := pyround (yearly_home_insurance / MONTHS_IN_YEAR) 2
  let yearly_costs : List ℚ :=
    [yearly_property_tax, yearly_school_tax, yearly_home_insurance]
  let total_yearly_costs := pyround yearly_costs.sum 2
  let loan_amount :=
    pyround (property_details.value - cfg.loan_parameters.down_payment) 2
  let mortgage_payment :=
    pyround (calculate_mortgage_payment interest_rate_decimal
      cfg.loan_parameters.years_of_loan loan_amount) 2
  let monthly_interest_rate := calculate_monthly_interest_rate interest_rate_decimal
  let monthly_interest := pyround (loan_amount * monthly_interest_rate) 2
  let yearly_interest := pyround (monthly_interest * MONTHS_IN_YEAR) 2
  let total_payments :=
    mortgage_payment * ((cfg.loan_parameters.years_of_loan * MONTHS_IN_YEAR : ℤ) : ℚ)
  let total_interest := pyround (total_payments - loan_amount) 2
  let price_per_sqft :=
    if 0 < area_sqft then pyround (property_details.value / area_sqft) 2 else 0
  let monthly_costs : List ℚ :=
    [mortgage_payment, property_details.condo_fees, monthly_property_tax,
     monthly_school_tax, monthly_home_insurance]
  let total_monthly_costs := pyround monthly_costs.sum 2
  let affordability_monthly_costs :=
    total_monthly_costs + cfg.loan_parameters.monthly_debt_payment
  let gds_ratio :=
    if 0 < cfg.loan_parameters.monthly_salary then
      pyround (total_monthly_costs / cfg.loan_parameters.monthly_salary * 100) 2
    else 0
  let tds_ratio :=
    if 0 < cfg.loan_parameters.monthly_salary then
      pyround (affordability_monthly_costs / cfg.loan_parameters.monthly_salary * 100) 2
    else 0
  return {
    land_transfer_tax_rate := land_transfer_tax_rate
    land_transfer_tax := land_transfer_tax
    all_one_time_costs := all_one_time_costs
    cash_to_close := cash_to_close
    yearly_property_tax := yearly_property_tax
    monthly_property_tax := monthly_property_tax
    yearly_school_tax := yearly_school_tax
    monthly_school_tax := monthly_school_tax
    monthly_home_insurance := monthly_home_insurance
    total_yearly_costs := total_yearly_costs
    loan_amount := loan_amount
    mortgage_payment := mortgage_payment
    monthly_interest := monthly_interest
    yearly_interest := yearly_interest
    total_interest := total_interest
    price_per_sqft := price_per_sqft
    total_monthly_costs := total_monthly_costs
    gds_ratio := gds_ratio
    tds_ratio := tds_ratio }

/-! ## `MortgageResult` (`custom_types.py`) and `to_result` -/

/-- Python value of type `str | int` (or `str | float` for `Area`): the
metadata columns of `MortgageResult` hold either a string or a number. -/
inductive StrOrNum where
  | str (s : String)
  | int (n : ℤ)
  | num (q : ℚ)
deriving DecidableEq

/-- Embeds `MortgageResult`: the flattened record produced by `to_result`. -/
structure MortgageResult where
  Description : String
  Address : String
  Link : String
  Bedrooms : StrOrNum
  Bathrooms : StrOrNum
  Area : StrOrNum
  Year_Built : StrOrNum
  Property_Value : ℚ
  Down_Payment : ℚ
  Loan_Amount : ℚ
  Interest_Rate : ℚ
  Years_of_Loan : ℤ
  Monthly_Mortgage_Payment : ℚ
  Monthly_Interest : ℚ
  Yearly_Interest : ℚ
  Total_Interest : ℚ
  Condo_Fees : ℚ
  Total_Monthly_Costs : ℚ
  Land_Transfer_Tax_Rate : ℚ
  Land_Transfer_Tax : ℚ
  Notary_Cost : ℚ
  Inspection_Cost : ℚ
  Total_One_Time_Costs : ℚ
  Cash_to_Close : ℚ
  Property_Tax_Rate : ℚ
  Yearly_Property_Tax : ℚ
  Monthly_Property_Tax : ℚ
  School_Tax_Rate : ℚ
  Yearly_School_Tax : ℚ
  Monthly_School_Tax : ℚ
  Yearly_Home_Insurance : ℚ
  Monthly_Home_Insurance : ℚ
  Total_Yearly_Costs : ℚ
  Price_Per_Sqft : ℚ
  Monthly_Salary : ℚ
  Monthly_Debt_Payment : ℚ
  GDS_Ratio : ℚ
  TDS_Ratio : ℚ
deriving DecidableEq

/-- Python `x or ""` on an `int` field: `0` is falsy and becomes `""`. -/
def intOrEmpty (n : ℤ) : StrOrNum :=
  if n = 0 then .str "" else .int n

/-- Python `x or ""` on a `float` field: `0` is falsy and becomes `""`. -/
def numOrEmpty (q : ℚ) : StrOrNum :=
  if q = 0 then .str "" else .num q

/-- Embeds `CalculatedMortgage.to_result(property_details, cfg)`. -/
def CalculatedMortgage.to_result (self : CalculatedMortgage)
    (property_details : PropertyConfig) (cfg : PropertiesListConfig) :
    MortgageResult :=
  { Description := property_details.description.getD ""
    Address := property_details.address.getD ""
    Link := property_details.link.getD ""
    Bedrooms := intOrEmpty property_details.bedrooms
    Bathrooms := intOrEmpty property_details.bathrooms
    Area := numOrEmpty property_details.area_sqft
    Year_Built := intOrEmpty property_details.year_built
    Property_Value := property_details.value
    Down_Payment := cfg.loan_parameters.down_payment
    Loan_Amount := self.loan_amount
    Interest_Rate := cfg.loan_parameters.interest_rate
    Years_of_Loan := cfg.loan_parameters.years_of_loan
    Monthly_Mortgage_Payment := self.mortgage_payment
    Monthly_Interest := self.monthly_interest
    Yearly_Interest := self.yearly_interest
    Total_Interest := self.total_interest
    Condo_Fees := property_details.condo_fees
    Total_Monthly_Costs := self.total_monthly_costs
    Land_Transfer_Tax_Rate := self.land_transfer_tax_rate * 100
    Land_Transfer_Tax := self.land_transfer_tax
    Notary_Cost := cfg.necessary_expenses.notary_cost
    Inspection_Cost := cfg.necessary_expenses.inspection_cost
    Total_One_Time_Costs := self.all_one_time_costs
    Cash_to_Close := self.cash_to_close
    Property_Tax_Rate := property_details.property_tax
    Yearly_Property_Tax := self.yearly_property_tax
    Monthly_Property_Tax := self.monthly_property_tax
    School_Tax_Rate := property_details.school_tax
    Yearly_School_Tax := self.yearly_school_tax
    Monthly_School_Tax := self.monthly_school_tax
    Yearly_Home_Insurance := property_details.yearly_home_insurance
    Monthly_Home_Insurance := self.monthly_home_insurance
    Total_Yearly_Costs := self.total_yearly_costs
    Price_Per_Sqft := self.price_per_sqft
    Monthly_Salary := cfg.loan_parameters.monthly_salary
    Monthly_Debt_Payment := cfg.loan_parameters.monthly_debt_payment
    GDS_Ratio := self.gds_ratio
    TDS_Ratio := self.tds_ratio }

/-- Embeds `calculate_mortgage_from_settings(config, cfg)`. -/
def calculate_mortgage_from_settings (config : PropertyConfig)
    (cfg : PropertiesListConfig) : Except String MortgageResult := do
  let calculated ← CalculatedMortgage.init config cfg
  return calculated.to_result config cfg

/-! ## Validation (`validate_loan_config_and_properties`,
`get_property_config_errors`)

Each Python f-string error message becomes one constructor carrying exactly
the values interpolated into the message. -/

/-- One validation error message. -/
inductive ConfigError where
  /-- Message "Interest rate must be between 0 and 100%, got {r}" -/
  | interestRateOutOfRange (got : ℚ)
  /-- Message "Loan term must be positive, got {y}" -/
  | loanTermNotPositive (got : ℤ)
  /-- Message "Down payment cannot be negative, got {d}" -/
  | downPaymentNegative (got : ℚ)
  /-- Message "Monthly salary must be positive, got {s}" -/
  | monthlySalaryNotPositive (got : ℚ)
  /-- Message "Monthly debt payment cannot be negative, got {d}" -/
  | monthlyDebtPaymentNegative (got : ℚ)
  /-- Message "Notary cost cannot be negative, got {n}" -/
  | notaryCostNegative (got : ℚ)
  /-- Message "Inspection cost cannot be negative, got {i}" -/
  | inspectionCostNegative (got : ℚ)
  /-- Message "Property value must be positive, got {v}" -/
  | propertyValueNotPositive (got : ℚ)
  /-- Message "Property tax rate cannot be negative, got {t}" -/
  | propertyTaxNegative (got : ℚ)
  /-- Message "School tax rate cannot be negative, got {t}" -/
  | schoolTaxNegative (got : ℚ)
  /-- Message "Condo fees cannot be negative, got {f}" -/
  | condoFeesNegative (got : ℚ)
  /-- Message "Home insurance cannot be negative, got {h}" -/
  | homeInsuranceNegative (got : ℚ)
  /-- Message "Area (sqft) must be positive, got {a}" -/
  | areaNotPositive (got : ℚ)
  /-- Message "Land transfer tax brackets must be configured (…empty)" -/
  | bracketsEmpty
  /-- Message "Land transfer tax bracket {i} rate cannot be negative, got {r}" -/
  | bracketRateNegative (i : ℕ) (rate : ℚ)
  /-- Message "Land transfer tax bracket {i} threshold cannot be negative, got {t}" -/
  | bracketThresholdNegative (i : ℕ) (threshold : ℚ)
  /-- Message "…must be ordered from highest threshold to lowest; bracket {i-1}
  threshold ({prev}) must be greater than bracket {i} threshold ({t})" -/
  | bracketsOutOfOrder (iPrev i : ℕ) (prevThreshold threshold : ℚ)
  /-- Message "Down payment ({d}) cannot be >= property value ({v})" -/
  | downPaymentTooLarge (down value : ℚ)
deriving DecidableEq

/-- The `for i, bracket in enumerate(land_transfer_tax_brackets)` loop body of
`get_property_config_errors`: per-index rate/threshold sign checks and the
adjacent-ordering check against `brackets[i - 1]` for `i > 0`. -/
def bracketErrors (brackets : List LandTransferTaxBracket) : List ConfigError :=
  (List.range brackets.length).flatMap fun i =>
    let bracket := brackets.getD i ⟨0, 0⟩
    (if bracket.rate < 0 then [ConfigError.bracketRateNegative i bracket.rate] else []) ++
    (if bracket.threshold < 0 then
      [ConfigError.bracketThresholdNegative i bracket.threshold] else []) ++
    (if 0 < i then
      let prev_bracket := brackets.getD (i - 1) ⟨0, 0⟩
      if prev_bracket.threshold ≤ bracket.threshold then
        [ConfigError.bracketsOutOfOrder (i - 1) i prev_bracket.threshold bracket.threshold]
      else []
    else [])

/-- Embeds `get_property_config_errors(property_cfg, loan_cfg)`. -/
def get_property_config_errors (property_cfg : PropertyConfig)
    (loan_cfg : PropertiesListConfig) : List ConfigError :=
  (if property_cfg.value ≤ 0 then
    [ConfigError.propertyValueNotPositive property_cfg.value] else []) ++
  (if property_cfg.property_tax < 0 then
    [ConfigError.propertyTaxNegative property_cfg.property_tax] else []) ++
  (if property_cfg.school_tax < 0 then
    [ConfigError.schoolTaxNegative property_cfg.school_tax] else []) ++
  (if property_cfg.condo_fees < 0 then
    [ConfigError.condoFeesNegative property_cfg.condo_fees] else []) ++
  (if property_cfg.yearly_home_insurance < 0 then
    [ConfigError.homeInsuranceNegative property_cfg.yearly_home_insurance] else []) ++
  (if property_cfg.area_sqft ≤ 0 then
    [ConfigError.areaNotPositive property_cfg.area_sqft] else []) ++
  (if property_cfg.land_transfer_tax_brackets.isEmpty then
    [ConfigError.bracketsEmpty]
  else bracketErrors property_cfg.land_transfer_tax_brackets) ++
  (if property_cfg.value ≤ loan_cfg.loan_parameters.down_payment then
    [ConfigError.downPaymentTooLarge loan_cfg.loan_parameters.down_payment
      property_cfg.value] else [])

/-- Embeds `validate_loan_config_and_properties(loan_cfg)`: collects every error,
then raises one aggregate `ValidationError` carrying all of them (modelled by
`Except.error` on the full list) exactly when the list is non-empty. -/
def validate_loan_config_and_properties (loan_cfg : PropertiesListConfig) :
    Except (List ConfigError) Unit :=
  let errors : List ConfigError :=
    (if loan_cfg.loan_parameters.interest_rate < 0 ∨
        100 < loan_cfg.loan_parameters.interest_rate then
      [ConfigError.interestRateOutOfRange loan_cfg.loan_parameters.interest_rate] else []) ++
    (if loan_cfg.loan_parameters.years_of_loan ≤ 0 then
      [ConfigError.loanTermNotPositive loan_cfg.loan_parameters.years_of_loan] else []) ++
    (if loan_cfg.loan_parameters.down_payment < 0 then
      [ConfigError.downPaymentNegative loan_cfg.loan_parameters.down_payment] else []) ++
    (if loan_cfg.loan_parameters.monthly_salary ≤ 0 then
      [ConfigError.monthlySalaryNotPositive loan_cfg.loan_parameters.monthly_salary] else []) ++
    (if loan_cfg.loan_parameters.monthly_debt_payment < 0 then
      [ConfigError.monthlyDebtPaymentNegative
        loan_cfg.loan_parameters.monthly_debt_payment] else []) ++
    (if loan_cfg.necessary_expenses.notary_cost < 0 then
      [ConfigError.notaryCostNegative loan_cfg.necessary_expenses.notary_cost] else []) ++
    (if loan_cfg.necessary_expenses.inspection_cost < 0 then
      [ConfigError.inspectionCostNegative
        loan_cfg.necessary_expenses.inspection_cost] else []) ++
    loan_cfg.properties.flatMap (fun property => get_property_config_errors property loan_cfg)
  if errors = [] then .ok () else .error errors

/-! ## Batch orchestrator (`mortgagecalculator_batch.py`)

`batch_calculate` iterates `cfg.properties`, calls
`calculate_mortgage_from_settings(prop, cfg)` on each and appends the result
to `results` (I/O — CSV and report writing — is outside the embedding).  It
never calls `validate_loan_config_and_properties`: its
`except ValidationError` clause guards a loop body in which nothing raises
`ValidationError`.  (The source's `calculated.to_result()` is an
`AttributeError` at runtime — `calculated` is already the flattened dict —
so the result-collection below models the values the loop computes.) -/

/-- The result list collected by the loop in `batch_calculate(cfg)`. -/
def batch_calculate_results (cfg : PropertiesListConfig) :
    Except String (List MortgageResult) :=
  cfg.properties.mapM fun prop => calculate_mortgage_from_settings prop cfg

/-! ## Derived definitions and concrete inputs used by the verification -/

/-- A rational has been rounded to 2 decimal places: it is an integer number
of hundredths. -/
def twoDecimalPlaces (q : ℚ) : Prop := ∃ k : ℤ, q = (k : ℚ) / 100

/-- The record `CalculatedMortgage.__init__` stores once the resolver has
returned `rate` (the success continuation of `init`, as one pure function). -/
def initFields (property_details : PropertyConfig) (cfg : PropertiesListConfig)
    (rate : ℚ) : CalculatedMortgage :=
  let interest_rate_decimal := percent_to_decimal cfg.loan_parameters.interest_rate
  let land_transfer_tax := pyround (property_details.value * rate) 2
  let all_one_time_costs := pyround
    ([cfg.necessary_expenses.notary_cost, cfg.necessary_expenses.inspection_cost,
      land_transfer_tax] : List ℚ).sum 2
  let yearly_property_tax :=
    pyround (calculate_yearly_tax property_details.value
      (percent_to_decimal property_details.property_tax)) 2
  let monthly_property_tax := pyround (yearly_property_tax / MONTHS_IN_YEAR) 2
  let yearly_school_tax :=
    pyround (calculate_yearly_tax property_details.value
      (percent_to_decimal property_details.school_tax)) 2
  let monthly_school_tax := pyround (yearly_school_tax / MONTHS_IN_YEAR) 2
  let yearly_home_insurance := pyround property_details.yearly_home_insurance 2
  let monthly_home_insurance := pyround (yearly_home_insurance / MONTHS_IN_YEAR) 2
  let loan_amount :=
    pyround (property_details.value - cfg.loan_parameters.down_payment) 2
  let mortgage_payment :=
    pyround (calculate_mortgage_payment interest_rate_decimal
      cfg.loan_parameters.years_of_loan loan_amount) 2
  let monthly_interest :=
    pyround (loan_amount * calculate_monthly_interest_rate interest_rate_decimal) 2
  let total_monthly_costs := pyround
    ([mortgage_payment, property_details.condo_fees, monthly_property_tax,
      monthly_school_tax, monthly_home_insurance] : List ℚ).sum 2
  { land_transfer_tax_rate := pyround rate 7
    land_transfer_tax := land_transfer_tax
    all_one_time_costs := all_one_time_costs
    cash_to_close := pyround (cfg.loan_parameters.down_payment + all_one_time_costs) 2
    yearly_property_tax := yearly_property_tax
    monthly_property_tax := monthly_property_tax
    yearly_school_tax := yearly_school_tax
    monthly_school_tax := monthly_school_tax
    monthly_home_insurance := monthly_home_insurance
    total_yearly_costs := pyround
      ([yearly_property_tax, yearly_school_tax, yearly_home_insurance] : List ℚ).sum 2
    loan_amount := loan_amount
    mortgage_payment := mortgage_payment
    monthly_interest := monthly_interest
    yearly_interest := pyround (monthly_interest * MONTHS_IN_YEAR) 2
    total_interest := pyround
      (mortgage_payment * ((cfg.loan_parameters.years_of_loan * MONTHS_IN_YEAR : ℤ) : ℚ)
        - loan_amount) 2
    price_per_sqft :=
      if 0 < property_details.area_sqft then
        pyround (property_details.value / property_details.area_sqft) 2
      else 0
    total_monthly_costs := total_monthly_costs
    gds_ratio :=
      if 0 < cfg.loan_parameters.monthly_salary then
        pyround (total_monthly_costs / cfg.loan_parameters.monthly_salary * 100) 2
      else 0
    tds_ratio :=
      if 0 < cfg.loan_parameters.monthly_salary then
        pyround ((total_monthly_costs + cfg.loan_parameters.monthly_debt_payment) /
          cfg.loan_parameters.monthly_salary * 100) 2
      else 0 }

/-- The bracket schedule of the spec's resolver examples:
`[(200000, 1.5), (50000, 1.0), (0, 0.5)]`. -/
def exBrackets : List LandTransferTaxBracket :=
  [⟨200000, 3/2⟩, ⟨50000, 1⟩, ⟨0, 1/2⟩]

/-- A property that fails validation (negative condo fees); all other values
valid.  Zero interest keeps the arithmetic small. -/
def c3prop : PropertyConfig :=
  { value := 100000, condo_fees := -1, area_sqft := 1000, bedrooms := 2,
    bathrooms := 1, year_built := 1990, interest_rate := 0, years_of_loan := 10,
    property_tax := 1, school_tax := 1/5, yearly_home_insurance := 600,
    notary_cost := 0, inspection_cost := 0,
    land_transfer_tax_brackets := [⟨0, 1⟩] }

/-- A batch configuration whose single property is invalid. -/
def c3cfg : PropertiesListConfig :=
  { properties := [c3prop],
    loan_parameters :=
      { down_payment := 20000, interest_rate := 0, years_of_loan := 10,
        monthly_salary := 4000, monthly_debt_payment := 100 },
    necessary_expenses := { notary_cost := 1000, inspection_cost := 500 } }

/-- A property whose only violations are negative condo fees and
down payment ≥ value (against `c4cfg`). -/
def c4prop : PropertyConfig :=
  { value := 100000, condo_fees := -1, area_sqft := 1000, bedrooms := 2,
    bathrooms := 1, year_built := 1990, interest_rate := 0, years_of_loan := 10,
    property_tax := 1, school_tax := 1/5, yearly_home_insurance := 600,
    notary_cost := 0, inspection_cost := 0,
    land_transfer_tax_brackets := [⟨0, 1⟩] }

/-- A configuration with down payment equal to `c4prop`'s value, otherwise
valid. -/
def c4cfg : PropertiesListConfig :=
  { properties := [c4prop],
    loan_parameters :=
      { down_payment := 100000, interest_rate := 5, years_of_loan := 25,
        monthly_salary := 5000, monthly_debt_payment := 0 },
    necessary_expenses := { notary_cost := 0, inspection_cost := 0 } }

/-- A property with the unordered brackets `[(100, 1.0), (200, 0.5)]`,
otherwise valid. -/
def c5prop : PropertyConfig :=
  { value := 100000, condo_fees := 50, area_sqft := 1000, bedrooms := 2,
    bathrooms := 1, year_built := 1990, interest_rate := 0, years_of_loan := 10,
    property_tax := 1, school_tax := 1/5, yearly_home_insurance := 600,
    notary_cost := 0, inspection_cost := 0,
    land_transfer_tax_brackets := [⟨100, 1⟩, ⟨200, 1/2⟩] }

/-- A configuration carrying `c5prop`, otherwise valid. -/
def c5cfg : PropertiesListConfig :=
  { properties := [c5prop],
    loan_parameters :=
      { down_payment := 20000, interest_rate := 5, years_of_loan := 25,
        monthly_salary := 5000, monthly_debt_payment := 0 },
    necessary_expenses := { notary_cost := 0, inspection_cost := 0 } }

/-- The property of the spec's end-to-end scenario: value 300000, 0.5%
property tax, 0.1% school tax, 1200 insurance, 300 condo fees, brackets
`[(200000, 1.5), (0, 0.5)]`. -/
def c6prop : PropertyConfig :=
  { value := 300000, condo_fees := 300, area_sqft := 1000, bedrooms := 3,
    bathrooms := 2, year_built := 2000, interest_rate := 5, years_of_loan := 25,
    property_tax := 1/2, school_tax := 1/10, yearly_home_insurance := 1200,
    notary_cost := 0, inspection_cost := 0,
    land_transfer_tax_brackets := [⟨200000, 3/2⟩, ⟨0, 1/2⟩] }

/-- The loan of the spec's end-to-end scenario: down payment 60000, 5.0%
interest, 25 years, monthly salary 6000. -/
def c6cfg : PropertiesListConfig :=
  { properties := [c6prop],
    loan_parameters :=
      { down_payment := 60000, interest_rate := 5, years_of_loan := 25,
        monthly_salary := 6000, monthly_debt_payment := 0 },
    necessary_expenses := { notary_cost := 0, inspection_cost := 0 } }

/-- A small fully valid property used to instantiate universally quantified
theorems (zero interest keeps the arithmetic small). -/
def simpleProp : PropertyConfig :=
  { value := 100000, condo_fees := 50, area_sqft := 1000, bedrooms := 2,
    bathrooms := 1, year_built := 1990, interest_rate := 0, years_of_loan := 99,
    property_tax := 1, school_tax := 1/5, yearly_home_insurance := 600,
    notary_cost := 77, inspection_cost := 88,
    land_transfer_tax_brackets := [⟨50000, 2⟩, ⟨0, 1⟩] }

/-- A loan configuration for `simpleProp`. -/
def simpleCfg : PropertiesListConfig :=
  { properties := [simpleProp],
    loan_parameters :=
      { down_payment := 20000, interest_rate := 0, years_of_loan := 10,
        monthly_salary := 4000, monthly_debt_payment := 100 },
    necessary_expenses := { notary_cost := 1000, inspection_cost := 500 } }

/-- The `CalculatedMortgage` produced on `(simpleProp, simpleCfg)`. -/
def simpleCM : CalculatedMortgage :=
  { land_transfer_tax_rate := 1/50, land_transfer_tax := 2000,
    all_one_time_costs := 3500, cash_to_close := 23500,
    yearly_property_tax := 1000, monthly_property_tax := 8333/100,
    yearly_school_tax := 200, monthly_school_tax := 1667/100,
    monthly_home_insurance := 50, total_yearly_costs := 1800,
    loan_amount := 80000, mortgage_payment := 66667/100,
    monthly_interest := 0, yearly_interest := 0, total_interest := 2/5,
    price_per_sqft := 100, total_monthly_costs := 86667/100,
    gds_ratio := 2167/100, tds_ratio := 2417/100 }

/-- Like `simpleProp` but with zero area (rejected by the Validator, accepted
by the Calculator's defensive guard). -/
def zeroProp : PropertyConfig := { simpleProp with area_sqft := 0 }

/-- Like `simpleCfg` but with zero monthly salary, carrying `zeroProp`. -/
def zeroCfg : PropertiesListConfig :=
  { simpleCfg with
    properties := [zeroProp],
    loan_parameters := { simpleCfg.loan_parameters with monthly_salary := 0 } }

/-- The `CalculatedMortgage` produced on `(zeroProp, zeroCfg)`: the zero
guards yield 0 for price per sqft and both ratios. -/
def zeroCM : CalculatedMortgage :=
  { land_transfer_tax_rate := 1/50, land_transfer_tax := 2000,
    all_one_time_costs := 3500, cash_to_close := 23500,
    yearly_property_tax := 1000, monthly_property_tax := 8333/100,
    yearly_school_tax := 200, monthly_school_tax := 1667/100,
    monthly_home_insurance := 50, total_yearly_costs := 1800,
    loan_amount := 80000, mortgage_payment := 66667/100,
    monthly_interest := 0, yearly_interest := 0, total_interest := 2/5,
    price_per_sqft := 0, total_monthly_costs := 86667/100,
    gds_ratio := 0, tds_ratio := 0 }

/-- Like `simpleProp` with different per-property loan fields
(`interest_rate`, `years_of_loan`, `notary_cost`, `inspection_cost`): the
Calculator never reads them. -/
def simplePropAlt : PropertyConfig :=
  { simpleProp with
    interest_rate := 42, years_of_loan := 1,
    notary_cost := 123456, inspection_cost := 654321 }

/-! ## Division-checked refinement of the Calculator

`calculate_mortgage_payment` above uses the field's total division (division
by zero yields 0), which collapses Python's `ZeroDivisionError`.  The
refinement below reinstates that error path: each Python division of the
payment formula raises exactly when its denominator is zero, and `pow`
raises on a zero base with a negative exponent.  For `years_of_loan > 0`
the two models agree; at `years_of_loan = 0` the source raises
`ZeroDivisionError` in either branch of the formula. -/

/-- Embeds `calculate_mortgage_payment(yearly_rate_decimal, years,
loan_amount)` with Python's `ZeroDivisionError` made explicit: the zero-rate
branch divides by `years * 12`, the annuity branch evaluates
`pow(1 + monthly_rate, months)` (raising on a zero base with negative
exponent) and then divides by `pow(...) - 1`. -/
def calculate_mortgage_payment_checked (yearly_rate_decimal : ℚ) (years : ℤ)
    (loan_amount : ℚ) : Except String ℚ :=
  if yearly_rate_decimal = 0 then
    if (years * MONTHS_IN_YEAR : ℤ) = 0 then
      .error "ZeroDivisionError: float division by zero"
    else
      .ok (loan_amount / (years * MONTHS_IN_YEAR : ℤ))
  else
    let monthly_rate := calculate_monthly_interest_rate yearly_rate_decimal
    let months : ℤ := years * MONTHS_IN_YEAR
    if 1 + monthly_rate = 0 ∧ months < 0 then
      .error "ZeroDivisionError: 0.0 cannot be raised to a negative power"
    else if (1 + monthly_rate) ^ months - 1 = 0 then
      .error "ZeroDivisionError: float division by zero"
    else
      .ok ((loan_amount * monthly_rate * (1 + monthly_rate) ^ months) /
        ((1 + monthly_rate) ^ months - 1))

/-- Embeds `CalculatedMortgage.__init__(property_details, cfg)` with the
division-checked payment: identical to `CalculatedMortgage.init` except that
the `calculate_mortgage_payment` call propagates `ZeroDivisionError` (at the
source line computing `self.mortgage_payment`). -/
def CalculatedMortgage.init_checked (property_details : PropertyConfig)
    (cfg : PropertiesListConfig) : Except String CalculatedMortgage := do
  let interest_rate_decimal := percent_to_decimal cfg.loan_parameters.interest_rate
  let property_tax_decimal := percent_to_decimal property_details.property_tax
  let school_tax_decimal := percent_to_decimal property_details.school_tax
  let area_sqft : ℚ := property_details.area_sqft
  let brackets := property_details.land_transfer_tax_brackets
  let rate ← land_transfer_tax_rate_decimal property_details.value brackets
  let land_transfer_tax_rate := pyround rate 7
  let ltt ← calculate_land_transfer_tax property_details.value brackets
  let land_transfer_tax := pyround ltt 2
  let one_time_costs : List ℚ :=
    [cfg.necessary_expenses.notary_cost, cfg.necessary_expenses.inspection_cost,
     land_transfer_tax]
  let all_one_time_costs := pyround one_time_costs.sum 2
  let cash_to_close := pyround (cfg.loan_parameters.down_payment + all_one_time_costs) 2
  let yearly_property_tax :=
    pyround (calculate_yearly_tax property_details.value property_tax_decimal) 2
  let monthly_property_tax := pyround (yearly_property_tax / MONTHS_IN_YEAR) 2
  let yearly_school_tax :=
    pyround (calculate_yearly_tax property_details.value school_tax_decimal) 2
  let monthly_school_tax := pyround (yearly_school_tax / MONTHS_IN_YEAR) 2
  let yearly_home_insurance := pyround property_details.yearly_home_insurance 2
  let monthly_home_insurance := pyround (yearly_home_insurance / MONTHS_IN_YEAR) 2
  let yearly_costs : List ℚ :=
    [yearly_property_tax, yearly_school_tax, yearly_home_insurance]
  let total_yearly_costs := pyround yearly_costs.sum 2
  let loan_amount :=
    pyround (property_details.value - cfg.loan_parameters.down_payment) 2
  let payment_raw ← calculate_mortgage_payment_checked interest_rate_decimal
    cfg.loan_parameters.years_of_loan loan_amount
  let mortgage_payment := pyround payment_raw 2
  let monthly_interest_rate := calculate_monthly_interest_rate interest_rate_decimal
  let monthly_interest := pyround (loan_amount * monthly_interest_rate) 2
  let yearly_interest := pyround (monthly_interest * MONTHS_IN_YEAR) 2
  let total_payments :=
    mortgage_payment * ((cfg.loan_parameters.years_of_loan * MONTHS_IN_YEAR : ℤ) : ℚ)
  let total_interest := pyround (total_payments - loan_amount) 2
  let price_per_sqft :=
    if 0 < area_sqft then pyround (property_details.value / area_sqft) 2 else 0
  let monthly_costs : List ℚ :=
    [mortgage_payment, property_details.condo_fees, monthly_property_tax,
     monthly_school_tax, monthly_home_insurance]
  let total_monthly_costs := pyround monthly_costs.sum 2
  let affordability_monthly_costs :=
    total_monthly_costs + cfg.loan_parameters.monthly_debt_payment
  let gds_ratio :=
    if 0 < cfg.loan_parameters.monthly_salary then
      pyround (total_monthly_costs / cfg.loan_parameters.monthly_salary * 100) 2
    else 0
  let tds_ratio :=
    if 0 < cfg.loan_parameters.monthly_salary then
      pyround (affordability_monthly_costs / cfg.loan_parameters.monthly_salary * 100) 2
    else 0
  return {
    land_transfer_tax_rate := land_transfer_tax_rate
    land_transfer_tax := land_transfer_tax
    all_one_time_costs := all_one_time_costs
    cash_to_close := cash_to_close
    yearly_property_tax := yearly_property_tax
    monthly_property_tax := monthly_property_tax
    yearly_school_tax := yearly_school_tax
    monthly_school_tax := monthly_school_tax
    monthly_home_insurance := monthly_home_insurance
    total_yearly_costs := total_yearly_costs
    loan_amount := loan_amount
    mortgage_payment := mortgage_payment
    monthly_interest := monthly_interest
    yearly_interest := yearly_interest
    total_interest := total_interest
    price_per_sqft := price_per_sqft
    total_monthly_costs := total_monthly_costs
    gds_ratio := gds_ratio
    tds_ratio := tds_ratio }

/-- Like `simpleCfg` but with `years_of_loan = 0`: an input that has not
passed validation (the Validator rejects a non-positive loan term). -/
def zeroYearsCfg : PropertiesListConfig :=
  { simpleCfg with
    loan_parameters := { simpleCfg.loan_parameters with years_of_loan := 0 } }

/-! ## General lemmas -/

set_option maxRecDepth 100000

lemma mem_if_singleton {α : Type} {c : Prop} [Decidable c] {a x : α} :
    (a ∈ if c then [x] else []) ↔ c ∧ a = x := by
  split <;> simp_all

lemma pyround_twoDecimalPlaces (x : ℚ) : twoDecimalPlaces (pyround x 2) :=
  ⟨roundHalfEven (x * 10 ^ 2), by norm_num [pyround]⟩

lemma land_transfer_tax_rate_decimal_ok (value : ℚ) :
    ∀ brackets : List LandTransferTaxBracket, brackets ≠ [] →
      ∃ r, land_transfer_tax_rate_decimal value brackets = .ok r := by
  intro brackets
  induction brackets with
  | nil => intro h; exact absurd rfl h
  | cons b rest ih =>
    intro _
    by_cases hb : b.threshold < value
    · exact ⟨percent_to_decimal b.rate, by simp [land_transfer_tax_rate_decimal, hb]⟩
    · cases rest with
      | nil =>
        exact ⟨percent_to_decimal b.rate, by simp [land_transfer_tax_rate_decimal, hb]⟩
      | cons r rs =>
        obtain ⟨q, hq⟩ := ih (by simp)
        exact ⟨q, by simpa [land_transfer_tax_rate_decimal, hb] using hq⟩

lemma land_transfer_tax_rate_decimal_error_iff (value : ℚ)
    (brackets : List LandTransferTaxBracket) :
    (∃ msg, land_transfer_tax_rate_decimal value brackets = .error msg) ↔
      brackets = [] := by
  constructor
  · rintro ⟨msg, hmsg⟩
    by_contra hne
    obtain ⟨r, hr⟩ := land_transfer_tax_rate_decimal_ok value brackets hne
    rw [hr] at hmsg
    exact Except.noConfusion hmsg
  · rintro rfl
    exact ⟨_, rfl⟩

lemma land_transfer_tax_rate_decimal_eq_find (value : ℚ) :
    ∀ (brackets : List LandTransferTaxBracket) (h : brackets ≠ []),
      land_transfer_tax_rate_decimal value brackets =
        .ok (percent_to_decimal
          (((brackets.find? fun b => decide (b.threshold < value)).getD
            (brackets.getLast h)).rate)) := by
  intro brackets
  induction brackets with
  | nil => intro h; exact absurd rfl h
  | cons b rest ih =>
    intro h
    by_cases hb : b.threshold < value
    · simp [land_transfer_tax_rate_decimal, hb, List.find?_cons_of_pos]
    · cases rest with
      | nil =>
        simp [land_transfer_tax_rate_decimal, hb, List.find?_cons_of_neg,
          List.getLast_singleton]
      | cons r rs =>
        have hrs : (r :: rs : List LandTransferTaxBracket) ≠ [] := by simp
        have := ih hrs
        rw [List.getLast_cons hrs]
        simpa [land_transfer_tax_rate_decimal, hb, List.find?_cons_of_neg] using this

/-! ## Claim theorems -/

/-- C1: for every loan amount, loan term in years > 0, and yearly rate given
as a decimal fraction, `calculate_mortgage_payment` returns
`loan_amount / (years * 12)` when the rate is 0, and otherwise
`loan_amount * r * (1+r)^m / ((1+r)^m - 1)` with `r = yearly_rate / 12` and
`m = years * 12`. -/
theorem calculate_mortgage_payment_spec (yearly_rate loan_amount : ℚ)
    (years : ℤ) (hy : 0 < years) :
    (yearly_rate = 0 →
      calculate_mortgage_payment yearly_rate years loan_amount =
        loan_amount / ((years : ℚ) * 12)) ∧
    (yearly_rate ≠ 0 →
      calculate_mortgage_payment yearly_rate years loan_amount =
        loan_amount * (yearly_rate / 12) * (1 + yearly_rate / 12) ^ (years * 12) /
          ((1 + yearly_rate / 12) ^ (years * 12) - 1)) := by
  constructor
  · intro h0
    simp only [calculate_mortgage_payment, if_pos h0, MONTHS_IN_YEAR]
    push_cast
    ring_nf
  · intro hne
    simp only [calculate_mortgage_payment, if_neg hne,
      calculate_monthly_interest_rate, MONTHS_IN_YEAR]
    norm_num

/-- Witness for C1 at rate 5% (0.05), 25 years, loan 240000. -/
theorem calculate_mortgage_payment_spec_witness :
    calculate_mortgage_payment (1/20) 25 240000 =
      240000 * ((1/20) / 12) * (1 + (1/20) / 12) ^ ((25 : ℤ) * 12) /
        ((1 + (1/20) / 12) ^ ((25 : ℤ) * 12) - 1) :=
  (calculate_mortgage_payment_spec (1/20) 240000 25 (by norm_num)).2 (by norm_num)

/-- C2: `land_transfer_tax_rate_decimal` fails exactly on the empty bracket
list; on a non-empty list it returns the decimal rate of the first bracket
whose threshold is strictly below the value, defaulting to the last
bracket's rate; on `[(200000,1.5),(50000,1.0),(0,0.5)]` it gives 1.5% at
250000, 1.0% at 100000, 0.5% at 50000 and 0.5% at 0. -/
theorem land_transfer_tax_rate_decimal_spec :
    (∀ (value : ℚ) (brackets : List LandTransferTaxBracket),
      (∃ msg, land_transfer_tax_rate_decimal value brackets = .error msg) ↔
        brackets = []) ∧
    (∀ (value : ℚ) (brackets : List LandTransferTaxBracket) (h : brackets ≠ []),
      land_transfer_tax_rate_decimal value brackets =
        .ok (percent_to_decimal
          (((brackets.find? fun b => decide (b.threshold < value)).getD
            (brackets.getLast h)).rate))) ∧
    land_transfer_tax_rate_decimal 250000 exBrackets = .ok (3/200) ∧
    land_transfer_tax_rate_decimal 100000 exBrackets = .ok (1/100) ∧
    land_transfer_tax_rate_decimal 50000 exBrackets = .ok (1/200) ∧
    land_transfer_tax_rate_decimal 0 exBrackets = .ok (1/200) :=
  ⟨land_transfer_tax_rate_decimal_error_iff,
   land_transfer_tax_rate_decimal_eq_find,
   by with_unfolding_all rfl, by with_unfolding_all rfl,
   by with_unfolding_all rfl, by with_unfolding_all rfl⟩

/-- Witness for C2's universally quantified part, taken at value 250000 and
the example bracket list. -/
theorem land_transfer_tax_rate_decimal_spec_witness :
    land_transfer_tax_rate_decimal 250000 exBrackets =
      .ok (percent_to_decimal
        (((exBrackets.find? fun b => decide (b.threshold < 250000)).getD
          (exBrackets.getLast (by simp [exBrackets]))).rate)) :=
  land_transfer_tax_rate_decimal_spec.2.1 250000 exBrackets (by simp [exBrackets])

/-- C3 (refuting): the batch orchestrator never invokes the Validator.  On a
batch whose single property fails validation (negative condo fees,
`validate_loan_config_and_properties` rejects it), the result-collection loop
of `batch_calculate` still produces a (complete) result list rather than
aborting before computation. -/
theorem batch_calculate_skips_validation :
    validate_loan_config_and_properties c3cfg =
      .error [ConfigError.condoFeesNegative (-1)] ∧
    (batch_calculate_results c3cfg).map (fun results => results.length) = .ok 1 := by
  constructor
  · with_unfolding_all rfl
  · with_unfolding_all rfl

/-- C4: on a configuration whose only violations are negative condo fees and
down payment ≥ property value, validation reports exactly the two
corresponding messages, aggregated in one single error. -/
theorem validate_aggregates_all_errors :
    validate_loan_config_and_properties c4cfg =
      .error [ConfigError.condoFeesNegative (-1),
        ConfigError.downPaymentTooLarge 100000 100000] ∧
    ([ConfigError.condoFeesNegative (-1),
      ConfigError.downPaymentTooLarge 100000 100000] : List ConfigError).length = 2 := by
  constructor
  · with_unfolding_all rfl
  · rfl

/-- C6 (refuting): on the end-to-end scenario the monthly payment is exactly
1403.02 after rounding, not ≈ 1400.61 as claimed. -/
theorem end_to_end_payment_counterexample :
    (CalculatedMortgage.init c6prop c6cfg).map CalculatedMortgage.mortgage_payment =
      .ok (140302/100) ∧ (140302/100 : ℚ) ≠ 140061/100 := by
  constructor
  · with_unfolding_all rfl
  · norm_num

/-- C6 (amended): the end-to-end scenario yields loan amount 240000.00,
land-transfer rate 0.015 (1.5%), land-transfer tax 4500.00, monthly payment
1403.02, monthly property tax 125.00, monthly school tax 25.00, monthly
insurance 100.00, total monthly costs 1953.02, and GDS ratio 32.55% at
salary 6000. -/
theorem end_to_end_scenario_amended :
    CalculatedMortgage.init c6prop c6cfg = .ok
      { land_transfer_tax_rate := 3/200
        land_transfer_tax := 4500
        all_one_time_costs := 4500
        cash_to_close := 64500
        yearly_property_tax := 1500
        monthly_property_tax := 125
        yearly_school_tax := 300
        monthly_school_tax := 25
        monthly_home_insurance := 100
        total_yearly_costs := 3000
        loan_amount := 240000
        mortgage_payment := 140302/100
        monthly_interest := 1000
        yearly_interest := 12000
        total_interest := 180906
        price_per_sqft := 300
        total_monthly_costs := 195302/100
        gds_ratio := 3255/100
        tds_ratio := 3255/100 } ∧
    (CalculatedMortgage.init c6prop c6cfg).map
      (fun cm => (cm.to_result c6prop c6cfg).Land_Transfer_Tax_Rate) = .ok (3/2) := by
  constructor
  · with_unfolding_all rfl
  · with_unfolding_all rfl

lemma CalculatedMortgage.init_ok (p : PropertyConfig) (cfg : PropertiesListConfig)
    (r : ℚ)
    (hr : land_transfer_tax_rate_decimal p.value p.land_transfer_tax_brackets = .ok r) :
    CalculatedMortgage.init p cfg = .ok (initFields p cfg r) := by
  simp only [CalculatedMortgage.init, calculate_land_transfer_tax, hr]
  rfl

lemma CalculatedMortgage.init_error_of_nil (p : PropertyConfig)
    (cfg : PropertiesListConfig) (h : p.land_transfer_tax_brackets = []) :
    CalculatedMortgage.init p cfg =
      .error "No land transfer tax brackets configured" := by
  simp only [CalculatedMortgage.init, calculate_land_transfer_tax, h,
    land_transfer_tax_rate_decimal]
  rfl

/-- C7: in the flattened record, `Land_Transfer_Tax_Rate` is the resolver's
decimal rate rounded to 7 decimal places times 100, and every monetary output
computed by the Calculator is rounded to 2 decimal places. -/
theorem result_rounding_spec (p : PropertyConfig) (cfg : PropertiesListConfig)
    (cm : CalculatedMortgage) (r : ℚ)
    (hr : land_transfer_tax_rate_decimal p.value p.land_transfer_tax_brackets = .ok r)
    (hcm : CalculatedMortgage.init p cfg = .ok cm) :
    (cm.to_result p cfg).Land_Transfer_Tax_Rate = pyround r 7 * 100 ∧
    twoDecimalPlaces (cm.to_result p cfg).Loan_Amount ∧
    twoDecimalPlaces (cm.to_result p cfg).Monthly_Mortgage_Payment ∧
    twoDecimalPlaces (cm.to_result p cfg).Land_Transfer_Tax ∧
    twoDecimalPlaces (cm.to_result p cfg).Yearly_Property_Tax ∧
    twoDecimalPlaces (cm.to_result p cfg).Monthly_Property_Tax ∧
    twoDecimalPlaces (cm.to_result p cfg).Yearly_School_Tax ∧
    twoDecimalPlaces (cm.to_result p cfg).Monthly_School_Tax ∧
    twoDecimalPlaces (cm.to_result p cfg).Monthly_Home_Insurance ∧
    twoDecimalPlaces (cm.to_result p cfg).Total_One_Time_Costs ∧
    twoDecimalPlaces (cm.to_result p cfg).Total_Yearly_Costs ∧
    twoDecimalPlaces (cm.to_result p cfg).Total_Monthly_Costs ∧
    twoDecimalPlaces (cm.to_result p cfg).Cash_to_Close ∧
    twoDecimalPlaces (cm.to_result p cfg).Monthly_Interest ∧
    twoDecimalPlaces (cm.to_result p cfg).Yearly_Interest ∧
    twoDecimalPlaces (cm.to_result p cfg).Total_Interest ∧
    twoDecimalPlaces (cm.to_result p cfg).Price_Per_Sqft := by
  have h := CalculatedMortgage.init_ok p cfg r hr
  rw [hcm] at h
  obtain rfl : cm = initFields p cfg r := by
    injection h with h
  simp only [CalculatedMortgage.to_result, initFields]
  refine ⟨trivial, pyround_twoDecimalPlaces _, pyround_twoDecimalPlaces _,
    pyround_twoDecimalPlaces _, pyround_twoDecimalPlaces _,
    pyround_twoDecimalPlaces _, pyround_twoDecimalPlaces _,
    pyround_twoDecimalPlaces _, pyround_twoDecimalPlaces _,
    pyround_twoDecimalPlaces _, pyround_twoDecimalPlaces _,
    pyround_twoDecimalPlaces _, pyround_twoDecimalPlaces _,
    pyround_twoDecimalPlaces _, pyround_twoDecimalPlaces _,
    pyround_twoDecimalPlaces _, ?_⟩
  split
  · exact pyround_twoDecimalPlaces _
  · exact ⟨0, by norm_num⟩

/-- Witness for C7 on the concrete valid configuration
`(simpleProp, simpleCfg)` with resolver rate 0.02. -/
theorem result_rounding_spec_witness :
    (simpleCM.to_result simpleProp simpleCfg).Land_Transfer_Tax_Rate =
      pyround (1/50) 7 * 100 ∧
    twoDecimalPlaces (simpleCM.to_result simpleProp simpleCfg).Loan_Amount ∧
    twoDecimalPlaces (simpleCM.to_result simpleProp simpleCfg).Monthly_Mortgage_Payment ∧
    twoDecimalPlaces (simpleCM.to_result simpleProp simpleCfg).Land_Transfer_Tax ∧
    twoDecimalPlaces (simpleCM.to_result simpleProp simpleCfg).Yearly_Property_Tax ∧
    twoDecimalPlaces (simpleCM.to_result simpleProp simpleCfg).Monthly_Property_Tax ∧
    twoDecimalPlaces (simpleCM.to_result simpleProp simpleCfg).Yearly_School_Tax ∧
    twoDecimalPlaces (simpleCM.to_result simpleProp simpleCfg).Monthly_School_Tax ∧
    twoDecimalPlaces (simpleCM.to_result simpleProp simpleCfg).Monthly_Home_Insurance ∧
    twoDecimalPlaces (simpleCM.to_result simpleProp simpleCfg).Total_One_Time_Costs ∧
    twoDecimalPlaces (simpleCM.to_result simpleProp simpleCfg).Total_Yearly_Costs ∧
    twoDecimalPlaces (simpleCM.to_result simpleProp simpleCfg).Total_Monthly_Costs ∧
    twoDecimalPlaces (simpleCM.to_result simpleProp simpleCfg).Cash_to_Close ∧
    twoDecimalPlaces (simpleCM.to_result simpleProp simpleCfg).Monthly_Interest ∧
    twoDecimalPlaces (simpleCM.to_result simpleProp simpleCfg).Yearly_Interest ∧
    twoDecimalPlaces (simpleCM.to_result simpleProp simpleCfg).Total_Interest ∧
    twoDecimalPlaces (simpleCM.to_result simpleProp simpleCfg).Price_Per_Sqft :=
  result_rounding_spec simpleProp simpleCfg simpleCM (1/50)
    (by with_unfolding_all rfl) (by with_unfolding_all rfl)

lemma payment_checked_ok_eq (r L : ℚ) (y : ℤ) (pay : ℚ)
    (h : calculate_mortgage_payment_checked r y L = .ok pay) :
    pay = calculate_mortgage_payment r y L := by
  simp only [calculate_mortgage_payment_checked] at h
  simp only [calculate_mortgage_payment]
  by_cases h0 : r = 0
  · rw [if_pos h0] at h ⊢
    by_cases hz : (y * MONTHS_IN_YEAR : ℤ) = 0
    · rw [if_pos hz] at h
      exact Except.noConfusion h
    · rw [if_neg hz] at h
      injection h with h
      exact h.symm
  · rw [if_neg h0] at h ⊢
    by_cases hneg : 1 + calculate_monthly_interest_rate r = 0 ∧ y * MONTHS_IN_YEAR < 0
    · rw [if_pos hneg] at h
      exact Except.noConfusion h
    · rw [if_neg hneg] at h
      by_cases hd : (1 + calculate_monthly_interest_rate r) ^ (y * MONTHS_IN_YEAR) - 1 = 0
      · rw [if_pos hd] at h
        exact Except.noConfusion h
      · rw [if_neg hd] at h
        injection h with h
        exact h.symm

lemma init_checked_error_of_nil (p : PropertyConfig) (cfg : PropertiesListConfig)
    (h : p.land_transfer_tax_brackets = []) :
    CalculatedMortgage.init_checked p cfg =
      .error "No land transfer tax brackets configured" := by
  simp only [CalculatedMortgage.init_checked, calculate_land_transfer_tax, h,
    land_transfer_tax_rate_decimal]
  rfl

lemma init_checked_payment_error (p : PropertyConfig) (cfg : PropertiesListConfig)
    (r : ℚ) (e : String)
    (hr : land_transfer_tax_rate_decimal p.value p.land_transfer_tax_brackets = .ok r)
    (hp : calculate_mortgage_payment_checked
        (percent_to_decimal cfg.loan_parameters.interest_rate)
        cfg.loan_parameters.years_of_loan
        (pyround (p.value - cfg.loan_parameters.down_payment) 2) = .error e) :
    CalculatedMortgage.init_checked p cfg = .error e := by
  simp only [CalculatedMortgage.init_checked, calculate_land_transfer_tax, hr, hp]
  rfl

lemma init_checked_ok (p : PropertyConfig) (cfg : PropertiesListConfig)
    (r pay : ℚ)
    (hr : land_transfer_tax_rate_decimal p.value p.land_transfer_tax_brackets = .ok r)
    (hp : calculate_mortgage_payment_checked
        (percent_to_decimal cfg.loan_parameters.interest_rate)
        cfg.loan_parameters.years_of_loan
        (pyround (p.value - cfg.loan_parameters.down_payment) 2) = .ok pay) :
    CalculatedMortgage.init_checked p cfg = .ok (initFields p cfg r) := by
  have hpay := payment_checked_ok_eq _ _ _ _ hp
  simp only [CalculatedMortgage.init_checked, calculate_land_transfer_tax, hr, hp]
  subst hpay
  rfl

/-- C8 (refuting): the Calculator is not total.  At `years_of_loan = 0` — an
input that has not passed validation — with a non-empty bracket list,
`CalculatedMortgage.__init__` raises `ZeroDivisionError` inside
`calculate_mortgage_payment` instead of returning a value (shown on the
division-checked model, which reinstates Python's division-by-zero error
that the total-division model collapses). -/
theorem calculator_not_total_counterexample :
    simpleProp.land_transfer_tax_brackets ≠ [] ∧
    CalculatedMortgage.init_checked simpleProp zeroYearsCfg =
      .error "ZeroDivisionError: float division by zero" ∧
    calculate_mortgage_payment_checked 0 0 80000 =
      .error "ZeroDivisionError: float division by zero" := by
  refine ⟨by simp [simpleProp], ?_, ?_⟩
  · with_unfolding_all rfl
  · with_unfolding_all rfl

/-- C8 (amended): the Calculator never raises on its zero guards — any error
of `CalculatedMortgage.__init__` is either the resolver's empty-bracket
error or a `ZeroDivisionError` from the mortgage-payment formula, never a
division by area or by salary — and on success the guards hold:
non-positive area gives price per sqft 0, non-positive monthly salary gives
GDS and TDS ratios 0. -/
theorem calculator_zero_guards_amended (p : PropertyConfig)
    (cfg : PropertiesListConfig) :
    (∀ msg, CalculatedMortgage.init_checked p cfg = .error msg →
      p.land_transfer_tax_brackets = [] ∨
        calculate_mortgage_payment_checked
          (percent_to_decimal cfg.loan_parameters.interest_rate)
          cfg.loan_parameters.years_of_loan
          (pyround (p.value - cfg.loan_parameters.down_payment) 2) = .error msg) ∧
    (∀ cm, CalculatedMortgage.init_checked p cfg = .ok cm →
      (p.area_sqft ≤ 0 → cm.price_per_sqft = 0) ∧
      (cfg.loan_parameters.monthly_salary ≤ 0 →
        cm.gds_ratio = 0 ∧ cm.tds_ratio = 0)) := by
  by_cases hbs : p.land_transfer_tax_brackets = []
  · refine ⟨fun _ _ => Or.inl hbs, fun cm hcm => ?_⟩
    rw [init_checked_error_of_nil p cfg hbs] at hcm
    exact Except.noConfusion hcm
  · obtain ⟨r, hr⟩ := land_transfer_tax_rate_decimal_ok p.value _ hbs
    cases hp : calculate_mortgage_payment_checked
        (percent_to_decimal cfg.loan_parameters.interest_rate)
        cfg.loan_parameters.years_of_loan
        (pyround (p.value - cfg.loan_parameters.down_payment) 2) with
    | error e =>
      have h := init_checked_payment_error p cfg r e hr hp
      refine ⟨fun msg hmsg => ?_, fun cm hcm => ?_⟩
      · rw [h] at hmsg
        injection hmsg with he
        exact Or.inr (by rw [he])
      · rw [h] at hcm
        exact Except.noConfusion hcm
    | ok pay =>
      have h := init_checked_ok p cfg r pay hr hp
      refine ⟨fun msg hmsg => ?_, fun cm hcm => ?_⟩
      · rw [h] at hmsg
        exact Except.noConfusion hmsg
      · rw [h] at hcm
        obtain rfl : initFields p cfg r = cm := by injection hcm
        constructor
        · intro harea
          simp only [initFields]
          rw [if_neg (not_lt.mpr harea)]
        · intro hsal
          constructor <;> simp only [initFields] <;>
            rw [if_neg (not_lt.mpr hsal)]

/-- Witness for C8 (amended) on `(zeroProp, zeroCfg)`: area 0 and salary 0. -/
theorem calculator_zero_guards_amended_witness :
    zeroCM.price_per_sqft = 0 ∧ zeroCM.gds_ratio = 0 ∧ zeroCM.tds_ratio = 0 :=
  have h := (calculator_zero_guards_amended zeroProp zeroCfg).2 zeroCM
    (by with_unfolding_all rfl)
  have hs := h.2 (by norm_num [zeroCfg, simpleCfg])
  ⟨h.1 (by norm_num [zeroProp, simpleProp]), hs.1, hs.2⟩

/-- C9: the per-property fields `interest_rate`, `years_of_loan`,
`notary_cost` and `inspection_cost` never influence the result: two
Calculator runs on property configurations that agree on every other field,
under the same shared configuration, produce identical `CalculatedMortgage`
values. -/
theorem property_loan_fields_noninterference
    (p₁ p₂ : PropertyConfig) (cfg : PropertiesListConfig)
    (hvalue : p₁.value = p₂.value)
    (hcondo : p₁.condo_fees = p₂.condo_fees)
    (harea : p₁.area_sqft = p₂.area_sqft)
    (hbed : p₁.bedrooms = p₂.bedrooms)
    (hbath : p₁.bathrooms = p₂.bathrooms)
    (hyear : p₁.year_built = p₂.year_built)
    (hptax : p₁.property_tax = p₂.property_tax)
    (hstax : p₁.school_tax = p₂.school_tax)
    (hins : p₁.yearly_home_insurance = p₂.yearly_home_insurance)
    (hbrackets : p₁.land_transfer_tax_brackets = p₂.land_transfer_tax_brackets)
    (hdesc : p₁.description = p₂.description)
    (haddr : p₁.address = p₂.address)
    (hlink : p₁.link = p₂.link) :
    CalculatedMortgage.init p₁ cfg = CalculatedMortgage.init p₂ cfg := by
  obtain ⟨v₁, cf₁, ar₁, bd₁, bt₁, yb₁, ir₁, yl₁, pt₁, st₁, ins₁, nc₁, ic₁,
    bs₁, d₁, ad₁, l₁⟩ := p₁
  obtain ⟨v₂, cf₂, ar₂, bd₂, bt₂, yb₂, ir₂, yl₂, pt₂, st₂, ins₂, nc₂, ic₂,
    bs₂, d₂, ad₂, l₂⟩ := p₂
  have e₁ : v₁ = v₂ := hvalue
  have e₂ : cf₁ = cf₂ := hcondo
  have e₃ : ar₁ = ar₂ := harea
  have e₄ : bd₁ = bd₂ := hbed
  have e₅ : bt₁ = bt₂ := hbath
  have e₆ : yb₁ = yb₂ := hyear
  have e₇ : pt₁ = pt₂ := hptax
  have e₈ : st₁ = st₂ := hstax
  have e₉ : ins₁ = ins₂ := hins
  have e₁₀ : bs₁ = bs₂ := hbrackets
  have e₁₁ : d₁ = d₂ := hdesc
  have e₁₂ : ad₁ = ad₂ := haddr
  have e₁₃ : l₁ = l₂ := hlink
  subst e₁ e₂ e₃ e₄ e₅ e₆ e₇ e₈ e₉ e₁₀ e₁₁ e₁₂ e₁₃
  rfl

/-- Witness for C9: `simplePropAlt` differs from `simpleProp` exactly in the
four per-property loan fields, and the Calculator output is unchanged. -/
theorem property_loan_fields_noninterference_witness :
    CalculatedMortgage.init simpleProp simpleCfg =
      CalculatedMortgage.init simplePropAlt simpleCfg :=
  property_loan_fields_noninterference simpleProp simplePropAlt simpleCfg
    rfl rfl rfl rfl rfl rfl rfl rfl rfl rfl rfl rfl rfl

/-- C10: in the flattened record, the metadata fields Bedrooms, Bathrooms,
Area and Year_Built are the empty string exactly when the configuration
value is 0 (Python falsy `x or ""`), and the number itself otherwise. -/
theorem metadata_empty_string_spec (p : PropertyConfig)
    (cfg : PropertiesListConfig) (cm : CalculatedMortgage) :
    ((cm.to_result p cfg).Bedrooms = .str "" ↔ p.bedrooms = 0) ∧
    ((cm.to_result p cfg).Bathrooms = .str "" ↔ p.bathrooms = 0) ∧
    ((cm.to_result p cfg).Area = .str "" ↔ p.area_sqft = 0) ∧
    ((cm.to_result p cfg).Year_Built = .str "" ↔ p.year_built = 0) := by
  refine ⟨?_, ?_, ?_, ?_⟩ <;>
    simp only [CalculatedMortgage.to_result, intOrEmpty, numOrEmpty] <;>
    split <;> simp_all

/-- Witness for C10: a property with `area_sqft = 0` is reported with
`Area = ""`. -/
theorem metadata_empty_string_spec_witness :
    (simpleCM.to_result zeroProp simpleCfg).Area = .str "" :=
  ((metadata_empty_string_spec zeroProp simpleCfg simpleCM).2.2.1).mpr
    (by norm_num [zeroProp, simpleProp])

lemma bracketsOutOfOrder_mem_bracketErrors
    (bs : List LandTransferTaxBracket) (a b : ℕ) (pt t : ℚ) :
    ConfigError.bracketsOutOfOrder a b pt t ∈ bracketErrors bs ↔
      ∃ i, i < bs.length ∧ 0 < i ∧ a = i - 1 ∧ b = i ∧
        pt = (bs.getD (i-1) ⟨0, 0⟩).threshold ∧
        t = (bs.getD i ⟨0, 0⟩).threshold ∧ pt ≤ t := by
  unfold bracketErrors
  simp only [List.mem_flatMap, List.mem_range]
  constructor
  · rintro ⟨i, hi, hmem⟩
    refine ⟨i, hi, ?_⟩
    simp only [List.mem_append] at hmem
    rcases hmem with (h | h) | h
    · rw [mem_if_singleton] at h
      exact absurd h.2 (by simp)
    · rw [mem_if_singleton] at h
      exact absurd h.2 (by simp)
    · by_cases hi0 : 0 < i
      · rw [if_pos hi0] at h
        by_cases hle : (bs.getD (i-1) ⟨0, 0⟩).threshold ≤ (bs.getD i ⟨0, 0⟩).threshold
        · rw [if_pos hle] at h
          simp only [List.mem_singleton, ConfigError.bracketsOutOfOrder.injEq] at h
          exact ⟨hi0, h.1, h.2.1, h.2.2.1, h.2.2.2, h.2.2.1 ▸ h.2.2.2 ▸ hle⟩
        · rw [if_neg hle] at h
          exact absurd h (List.not_mem_nil _)
      · rw [if_neg hi0] at h
        exact absurd h (List.not_mem_nil _)
  · rintro ⟨i, hi, hi0, ha, hb, hpt, ht, hle⟩
    refine ⟨i, hi, ?_⟩
    have hle2 : (bs.getD (i - 1) ⟨0, 0⟩).threshold ≤
        (bs.getD i ⟨0, 0⟩).threshold := by
      rw [← hpt, ← ht]
      exact hle
    simp only [List.mem_append]
    right
    rw [if_pos hi0, if_pos hle2]
    simp [ha, hb, hpt, ht]

lemma bracketsOutOfOrder_mem_property_errors (p : PropertyConfig)
    (cfg : PropertiesListConfig) (a b : ℕ) (pt t : ℚ) :
    ConfigError.bracketsOutOfOrder a b pt t ∈ get_property_config_errors p cfg ↔
      ConfigError.bracketsOutOfOrder a b pt t ∈
        bracketErrors p.land_transfer_tax_brackets := by
  rcases hbs : p.land_transfer_tax_brackets with _ | ⟨hd, tl⟩
  · simp [get_property_config_errors, hbs, mem_if_singleton, bracketErrors]
  · simp [get_property_config_errors, hbs, mem_if_singleton]

/-- C5: for a property with a non-empty bracket list, the Validator reports a
bracket-ordering error exactly for the adjacent pairs that are not strictly
descending by threshold, with the message naming the two offending indices
and their threshold values; in particular `[(100,1.0),(200,0.5)]` yields the
error naming indices 0 and 1. -/
theorem bracket_order_validation_spec :
    (∀ (p : PropertyConfig) (cfg : PropertiesListConfig),
      p.land_transfer_tax_brackets ≠ [] →
      (∀ i : ℕ, i < p.land_transfer_tax_brackets.length → 0 < i →
        ((p.land_transfer_tax_brackets.getD (i-1) ⟨0, 0⟩).threshold ≤
            (p.land_transfer_tax_brackets.getD i ⟨0, 0⟩).threshold ↔
          ConfigError.bracketsOutOfOrder (i-1) i
            (p.land_transfer_tax_brackets.getD (i-1) ⟨0, 0⟩).threshold
            (p.land_transfer_tax_brackets.getD i ⟨0, 0⟩).threshold ∈
            get_property_config_errors p cfg)) ∧
      (∀ (a b : ℕ) (pt t : ℚ),
        ConfigError.bracketsOutOfOrder a b pt t ∈
          get_property_config_errors p cfg →
        b < p.land_transfer_tax_brackets.length ∧ 0 < b ∧ a = b - 1 ∧
          pt = (p.land_transfer_tax_brackets.getD (b-1) ⟨0, 0⟩).threshold ∧
          t = (p.land_transfer_tax_brackets.getD b ⟨0, 0⟩).threshold ∧ pt ≤ t)) ∧
    ConfigError.bracketsOutOfOrder 0 1 100 200 ∈
      get_property_config_errors c5prop c5cfg := by
  constructor
  · intro p cfg _
    constructor
    · intro i hi hi0
      rw [bracketsOutOfOrder_mem_property_errors,
        bracketsOutOfOrder_mem_bracketErrors]
      constructor
      · intro hle
        exact ⟨i, hi, hi0, rfl, rfl, rfl, rfl, hle⟩
      · rintro ⟨j, _, _, _, hb, hpt, ht, hle⟩
        exact hle
    · intro a b pt t hmem
      rw [bracketsOutOfOrder_mem_property_errors,
        bracketsOutOfOrder_mem_bracketErrors] at hmem
      obtain ⟨i, hi, hi0, ha, hb, hpt, ht, hle⟩ := hmem
      subst hb
      exact ⟨hi, hi0, ha, hpt, ht, hle⟩
  · have h : get_property_config_errors c5prop c5cfg =
        [ConfigError.bracketsOutOfOrder 0 1 100 200] := by
      with_unfolding_all rfl
    rw [h]
    exact List.mem_singleton_self _

/-- Witness for C5 at `(c5prop, c5cfg)`, adjacent pair at indices 0 and 1. -/
theorem bracket_order_validation_spec_witness :
    ConfigError.bracketsOutOfOrder 0 1
      (c5prop.land_transfer_tax_brackets.getD 0 ⟨0, 0⟩).threshold
      (c5prop.land_transfer_tax_brackets.getD 1 ⟨0, 0⟩).threshold ∈
      get_property_config_errors c5prop c5cfg :=
  ((bracket_order_validation_spec.1 c5prop c5cfg
      (by simp [c5prop])).1 1 (by simp [c5prop]) (by norm_num)).mp
    (by norm_num [c5prop])
